import Mathlib

/-!
Shallow embedding of the idcard-app Express backend (TypeScript) into Lean 4.

Each route handler is modelled as a pure function from the caller's JWT
payload, the request body and the relevant database tables (lists of rows)
to a response, and — for mutating handlers — a new database state.
JavaScript `null`/`undefined` values are modelled with `Option`; JavaScript
truthiness tests on such values (`!x`) are modelled explicitly (`none`,
`some 0`, `some ""` are falsy).
-/

namespace IdApp

/-! ## JavaScript-value helpers -/

/-- Truthiness of a nullable numeric field (JS `!x` is true for
`null`/`undefined` and for `0`). -/
def jsTruthyNat : Option Nat → Bool
  | none => false
  | some v => v != 0

/-- Truthiness of a nullable string field (JS `!x` is true for
`null`/`undefined` and for the empty string). -/
def jsTruthyStr : Option String → Bool
  | none => false
  | some s => s != ""

/-- Whitespace as recognized by JS `String.prototype.trim` (ASCII part;
all inputs in this development are ASCII). -/
def jsWhitespace (c : Char) : Bool :=
  c = ' ' || c = '\t' || c = '\n' || c = '\r' || c = '\x0b' || c = '\x0c'

/-- JS `String.prototype.trim` on the character-list view. -/
def jsTrimChars (l : List Char) : List Char :=
  ((l.dropWhile jsWhitespace).reverse.dropWhile jsWhitespace).reverse

/-- JS `String.prototype.trim`. -/
def jsTrimStr (s : String) : String :=
  String.mk (jsTrimChars s.data)

/-- JS `x || d` on a nullable string `x` (falsy `x`, i.e. `null`,
`undefined` or `""`, yields the default). -/
def jsOrStr (x : Option String) (d : String) : String :=
  match x with
  | none => d
  | some s => if s = "" then d else s

/-- JS `String.prototype.split` with a one-character separator, on the
character-list view of a string (`''.split(sep)` is `['']`). -/
def jsSplit (sep : Char) : List Char → List (List Char)
  | [] => [[]]
  | c :: rest =>
    let r := jsSplit sep rest
    if c = sep then [] :: r
    else
      match r with
      | [] => [[c]]
      | h :: t => (c :: h) :: t

/-! ## JWT payload and user rows -/

/-- The decoded JWT payload (`JWTUser` in `src/middleware/auth.ts`). -/
structure JWTUser where
  id : Nat
  mobile : String
  role : String
  organization_id : Option Nat
  department : Option String
deriving DecidableEq, Repr

/-- A row of the `users` table. -/
structure UserRow where
  id : Nat
  name : String
  mobile : String
  pin_hash : String
  role : String
  organization_id : Option Nat
  department : Option String
  email : Option String
  status : String
deriving DecidableEq, Repr

/-! ## GET /api/users (src/routes/users.ts) -/

namespace Users

/-- The columns selected by the `GET /api/users` queries
(`SELECT id, name, mobile, role, department, status, created_at`). -/
structure UserPublic where
  id : Nat
  name : String
  mobile : String
  role : String
  department : Option String
  status : String
deriving DecidableEq, Repr

/-- Projection applied by the `SELECT` column list. -/
def selectPublic (r : UserRow) : UserPublic :=
  { id := r.id, name := r.name, mobile := r.mobile, role := r.role,
    department := r.department, status := r.status }

inductive GetResult where
  | ok (users : List UserPublic)
  | err (status : Nat) (error : String)
deriving DecidableEq, Repr

/-- Handler of `GET /api/users`: owner sees everyone, admin sees only
their organization's users (400 when the admin has no organization),
everyone else sees only themselves. -/
def getAll (u : JWTUser) (db : List UserRow) : GetResult :=
  if u.role = "owner" then
    .ok (db.map selectPublic)
  else if u.role = "admin" then
    if !jsTruthyNat u.organization_id then
      .err 400 "Admin has no Organization linked!"
    else
      .ok ((db.filter (fun r => r.organization_id == u.organization_id)).map selectPublic)
  else
    .ok ((db.filter (fun r => r.id == u.id)).map selectPublic)

/-! ### POST /api/users/register-staff -/

/-- The mutable `users` table together with the next auto-increment id. -/
structure UsersState where
  users : List UserRow
  nextId : Nat
deriving DecidableEq, Repr

inductive RegisterResult where
  | created (status : Nat) (id : Nat) (name : String) (mobile : String)
  | err (status : Nat) (error : String)
deriving DecidableEq, Repr

/-- Body of `POST /api/users/register-staff`. -/
structure RegisterBody where
  name : String
  mobile : String
  pin : String
  department : Option String
  email : Option String
deriving DecidableEq, Repr

/-- Handler of `POST /api/users/register-staff` (after `authenticateToken`
and `requireRole(['admin'])`): checks the admin's organization link, then
duplicate mobile across all users, then inserts one staff row. `hashPin`
abstracts `bcrypt.hash`. -/
def registerStaff (hashPin : String → String) (u : JWTUser)
    (body : RegisterBody) (st : UsersState) : RegisterResult × UsersState :=
  if !jsTruthyNat u.organization_id then
    (.err 403 "You (Admin) are not linked to an Organization. Cannot create staff.", st)
  else
    if (st.users.filter (fun r => r.mobile == body.mobile)) ≠ [] then
      (.err 400 "Mobile already registered", st)
    else
      let row : UserRow :=
        { id := st.nextId, name := body.name, mobile := body.mobile,
          pin_hash := hashPin body.pin, role := "staff",
          organization_id := u.organization_id,
          department := body.department,
          email := match body.email with
                   | none => none
                   | some e => if e = "" then none else some e,
          status := "active" }
      (.created 201 st.nextId body.name body.mobile,
       { users := st.users ++ [row], nextId := st.nextId + 1 })

end Users

/-! ## POST /api/templates (src/routes/templates.ts) -/

namespace Templates

/-- A row of the `templates` table (`fields` is stored as a JSON array of
strings; it is modelled decoded). -/
structure TemplateRow where
  id : Nat
  name : String
  organization_id : Nat
  card_size : String
  orientation : String
  is_double_sided : Bool
  background_color : String
  text_color : String
  background_image_url : Option String
  fields : List String
deriving DecidableEq, Repr

/-- Database state seen by the templates routes: the `templates` table,
the set of existing organization ids, and the next auto-increment id. -/
structure TemplatesState where
  templates : List TemplateRow
  orgIds : List Nat
  nextId : Nat
deriving DecidableEq, Repr

/-- `AVAILABLE_FIELDS` from `src/routes/templates.ts`. -/
def AVAILABLE_FIELDS : List String :=
  ["photo", "id_no", "name", "father_name", "mother_name", "dob",
   "blood_group", "address", "mobile", "email", "department",
   "position", "issue_date", "expiry_date"]

/-- Body of `POST /api/templates` (defaults of the destructuring already
applied to `cardSize`, `orientation`, `isDoubleSided`, colors; `name` and
`fields` are nullable since the handler validates them). -/
structure CreateTemplateBody where
  name : Option String
  cardSize : String
  orientation : String
  isDoubleSided : Bool
  backgroundColor : String
  textColor : String
  backgroundImageUrl : Option String
  fields : Option (List String)
deriving DecidableEq, Repr

inductive CreateResult where
  | created (status : Nat) (templateId : Nat)
  | err (status : Nat) (error : String)
deriving DecidableEq, Repr

/-- Handler of `POST /api/templates` (after `authenticateToken` and
`requireRole(['admin'])`): validation, the query-before-insert duplicate
check on `(name.trim(), organization_id)`, then a single insert. A `none`
`fields` stands for a missing or non-array value. -/
def create (u : JWTUser) (body : CreateTemplateBody)
    (st : TemplatesState) : CreateResult × TemplatesState :=
  match body.name with
  | none => (.err 400 "Template name is required", st)
  | some rawName =>
    if jsTrimStr rawName = "" then (.err 400 "Template name is required", st)
    else
      match u.organization_id with
      | none => (.err 400 "You are not assigned to any organization.", st)
      | some organizationId =>
        if organizationId = 0 then
          (.err 400 "You are not assigned to any organization.", st)
        else if !st.orgIds.contains organizationId then
          (.err 404 "Organization does not exist.", st)
        else
          match body.fields with
          | none => (.err 400 "fields must be a non-empty array", st)
          | some fields =>
            if fields = [] then (.err 400 "fields must be a non-empty array", st)
            else
              let invalidFields := fields.filter (fun f => !AVAILABLE_FIELDS.contains f)
              if invalidFields ≠ [] then
                (.err 400 ("Invalid fields: " ++ String.intercalate ", " invalidFields), st)
              else if (st.templates.filter (fun t =>
                        t.name == jsTrimStr rawName && t.organization_id == organizationId)) ≠ [] then
                (.err 409 "Template name already exists", st)
              else
                let row : TemplateRow :=
                  { id := st.nextId, name := jsTrimStr rawName,
                    organization_id := organizationId,
                    card_size := body.cardSize, orientation := body.orientation,
                    is_double_sided := body.isDoubleSided,
                    background_color := body.backgroundColor,
                    text_color := body.textColor,
                    background_image_url := match body.backgroundImageUrl with
                                            | none => none
                                            | some v => if v = "" then none else some v,
                    fields := fields }
                (.created 201 st.nextId,
                 { templates := st.templates ++ [row], orgIds := st.orgIds,
                   nextId := st.nextId + 1 })

end Templates

/-! ## POST /api/organizations (src/routes/organization.ts) -/

namespace Organizations

/-- A row of the `organizations` table. -/
structure OrgRow where
  id : Nat
  name : String
  address : String
  mobile : String
  email : String
  contact_person : String
  designation : String
  pin_hash : String
  logo_url : Option String
  color : String
  agent_id : Nat
deriving DecidableEq, Repr

/-- A row of the `agents` table (columns used by the handler). -/
structure AgentRow where
  id : Nat
  name : String
  status : String
deriving DecidableEq, Repr

/-- Database state seen by `POST /api/organizations`. -/
structure OrgState where
  organizations : List OrgRow
  users : List UserRow
  agents : List AgentRow
  nextOrgId : Nat
  nextUserId : Nat
deriving DecidableEq, Repr

/-- Body of `POST /api/organizations` (the `color` default of the
destructuring already applied). -/
structure CreateOrgBody where
  name : String
  address : String
  mobile : String
  email : String
  contactPerson : String
  designation : String
  pin : String
  logoUrl : Option String
  color : String
  agentId : Option Nat
deriving DecidableEq, Repr

/-- An error raised by a MySQL insert inside the transaction, as the
handler inspects it: whether `error.code === 'ER_DUP_ENTRY'` and whether
`error.sqlMessage` mentions `mobile`. -/
structure DBErr where
  dupEntry : Bool
  msgMobile : Bool
deriving DecidableEq, Repr

inductive OrgResult where
  | created (status : Nat) (orgId : Nat) (adminId : Nat)
  | err (status : Nat) (error : String)
deriving DecidableEq, Repr

/-- `/^\d+$/.test(pin)`: at least one character and only decimal digits. -/
def pinAllDigits (pin : String) : Bool :=
  pin.length != 0 && pin.data.all (fun c => c.isDigit)

/-- The "Validation with better error messages" block of
`POST /api/organizations`, in source order: the message of the first
missing required field (each such early return is a 400). -/
def requiredError (body : CreateOrgBody) : Option String :=
  if body.name = "" then some "Organization name is required"
  else if body.address = "" then some "Address is required"
  else if body.mobile = "" then some "Mobile number is required"
  else if body.email = "" then some "Email is required"
  else if body.contactPerson = "" then some "Contact person is required"
  else if body.designation = "" then some "Designation is required"
  else if body.pin = "" then some "PIN is required"
  else if !jsTruthyNat body.agentId then some "Agent ID is required"
  else none

/-- The database-lookup validations of `POST /api/organizations`, in
source order (each is a 400 early return). -/
def lookupError (body : CreateOrgBody) (st : OrgState) : Option String :=
  if (st.agents.filter (fun a =>
       some a.id == body.agentId && a.status == "active")) = [] then
    some "Invalid agent ID or agent is inactive"
  else if (st.organizations.filter (fun o => o.name == body.name)) ≠ [] then
    some "Organization name already exists"
  else if (st.users.filter (fun r =>
            r.mobile == body.mobile && r.role == "admin")) ≠ [] then
    some ("Mobile number already registered as an admin. " ++
          "Please use a different mobile number.")
  else none

/-- The full sequence of early-return validations of
`POST /api/organizations`, in source order: `some (status, message)` is
the error response sent before any database write, `none` means the
handler proceeds to the transaction. -/
def validate (body : CreateOrgBody) (st : OrgState) : Option (Nat × String) :=
  match requiredError body with
  | some m => some (400, m)
  | none =>
    if body.pin.length ≠ 4 then
      some (400, "PIN must be exactly 4 digits")
    else if !pinAllDigits body.pin then
      some (400, "PIN must contain only numbers (0-9)")
    else
      match lookupError body st with
      | some m => some (400, m)
      | none => none

/-- Error mapping after a rollback: `ER_DUP_ENTRY` mentioning `mobile`
gets a dedicated 400; any other `ER_DUP_ENTRY` is rethrown and caught by
the outer handler as another 400; anything else becomes a 500. -/
def errResponse (e : DBErr) (st : OrgState) : OrgResult × OrgState :=
  if e.dupEntry && e.msgMobile then
    (.err 400 ("Mobile number already registered. " ++
               "Please use a different mobile number."), st)
  else if e.dupEntry then
    (.err 400 "Organization name or mobile number already exists", st)
  else (.err 500 "Internal server error", st)

/-- The transaction of `POST /api/organizations`: INSERT the organization,
INSERT its admin user (same mobile, same pin hash), COMMIT; on any insert
error, ROLLBACK (the returned state is the input state). -/
def runTransaction (hashPin : String → String) (body : CreateOrgBody)
    (failOrg failAdmin : Option DBErr) (st : OrgState) : OrgResult × OrgState :=
  let hashedPin := hashPin body.pin
  match failOrg with
  | some e => errResponse e st
  | none =>
    let orgId := st.nextOrgId
    match failAdmin with
    | some e => errResponse e st
    | none =>
      let orgRow : OrgRow :=
        { id := orgId, name := body.name, address := body.address,
          mobile := body.mobile, email := body.email,
          contact_person := body.contactPerson,
          designation := body.designation, pin_hash := hashedPin,
          logo_url := match body.logoUrl with
                      | none => none
                      | some v => if v = "" then none else some v,
          color := body.color, agent_id := body.agentId.getD 0 }
      let adminRow : UserRow :=
        { id := st.nextUserId, name := body.contactPerson,
          mobile := body.mobile, pin_hash := hashedPin, role := "admin",
          organization_id := some orgId, department := none,
          email := none, status := "active" }
      (.created 201 orgId st.nextUserId,
       { organizations := st.organizations ++ [orgRow],
         users := st.users ++ [adminRow], agents := st.agents,
         nextOrgId := st.nextOrgId + 1, nextUserId := st.nextUserId + 1 })

/-- Handler of `POST /api/organizations` (after `authenticateToken` and
`requireRole(['owner','agent'])`). `hashPin` abstracts `bcrypt.hash`.
`failOrg`/`failAdmin` inject a database error into the corresponding
`INSERT` of the transaction (`none` = the insert succeeds). -/
def create (hashPin : String → String) (body : CreateOrgBody)
    (failOrg failAdmin : Option DBErr) (st : OrgState) : OrgResult × OrgState :=
  match validate body st with
  | some sm => (.err sm.1 sm.2, st)
  | none => runTransaction hashPin body failOrg failAdmin st

end Organizations

/-! ## src/services/userServices.ts -/

namespace UserServices

/-- `getDefaultDepartment` helper. -/
def getDefaultDepartment (role : String) : String :=
  if role = "staff" then "General"
  else if role = "admin" then "Administration"
  else if role = "owner" then "Management"
  else "General"

/-- `getMaxIdCards` helper: role limits on created ID cards. -/
def getMaxIdCards (role : String) : Nat :=
  if role = "staff" then 100
  else if role = "admin" then 1000
  else if role = "owner" then 10000
  else 100

/-- `getAllowedTemplates` helper. -/
def getAllowedTemplates (role : String) : List String :=
  if role = "owner" then ["all"]
  else if role = "admin" then ["standard", "premium"]
  else ["standard"]

/-- The `SafeUser` produced by `getUserWithDefaults`: every critical field
has a value (`department` defaulted per role, `organization_id || 0`),
plus the computed business-logic fields. -/
structure SafeUser where
  id : Nat
  mobile : String
  role : String
  organization_id : Nat
  department : String
  canCreateTemplates : Bool
  canManageUsers : Bool
  maxIdCards : Nat
deriving DecidableEq, Repr

/-- `getUserWithDefaults`. -/
def getUserWithDefaults (u : JWTUser) : SafeUser :=
  { id := u.id, mobile := u.mobile, role := u.role,
    department := jsOrStr u.department (getDefaultDepartment u.role),
    organization_id := match u.organization_id with
                       | none => 0
                       | some v => v,
    canCreateTemplates := u.role = "admin" || u.role = "owner",
    canManageUsers := u.role = "owner",
    maxIdCards := getMaxIdCards u.role }

/-- The user object produced by `getUserForIdCardOperations`. -/
structure BusinessUser extends SafeUser where
  allowedTemplates : List String
  canExportIds : Bool
deriving DecidableEq, Repr

/-- `getUserForIdCardOperations`. -/
def getUserForIdCardOperations (u : JWTUser) : BusinessUser :=
  { getUserWithDefaults u with
    allowedTemplates := getAllowedTemplates u.role,
    canExportIds := u.role ≠ "staff" }

end UserServices

/-! ## src/routes/idCards.ts -/

namespace IdCards

/-- JS `padStart(2, '0')` on the character-list view. -/
def padStart2 (l : List Char) : List Char :=
  if 2 ≤ l.length then l else List.replicate (2 - l.length) '0' ++ l

/-- Nonempty and all decimal digits. -/
def isDigits (l : List Char) : Bool :=
  !l.isEmpty && l.all (fun c => c.isDigit)

def isHexDigit (c : Char) : Bool :=
  c.isDigit || ('a' ≤ c && c ≤ 'f') || ('A' ≤ c && c ≤ 'F')

/-- A decimal mantissa as accepted by JS `Number(...)`:
`digits`, `digits.`, `digits.digits` or `.digits`. -/
def isDecMantissa (l : List Char) : Bool :=
  let intPart := l.takeWhile (fun c => c.isDigit)
  let rest := l.dropWhile (fun c => c.isDigit)
  match rest with
  | [] => !intPart.isEmpty
  | c :: frac =>
    c = '.' && (!intPart.isEmpty || !frac.isEmpty) &&
      frac.all (fun d => d.isDigit)

/-- The exponent part after the `e`/`E` marker: optional sign and digits. -/
def isExpDigits (ex : List Char) : Bool :=
  match ex with
  | [] => false
  | c :: ds => if c = '+' || c = '-' then isDigits ds else isDigits ex

/-- An unsigned decimal literal as accepted by JS `Number(...)`:
mantissa with an optional exponent. -/
def isDecLiteral (l : List Char) : Bool :=
  let m := l.takeWhile (fun c => !(c = 'e' || c = 'E'))
  let rest := l.dropWhile (fun c => !(c = 'e' || c = 'E'))
  match rest with
  | [] => isDecMantissa m
  | _ :: ex => isDecMantissa m && isExpDigits ex

/-- Optional leading sign. -/
def isSigned (f : List Char → Bool) (l : List Char) : Bool :=
  match l with
  | [] => f l
  | c :: r => if c = '+' || c = '-' then f r else f l

/-- A radix-prefixed integer literal (`0x`, `0o`, `0b`) as accepted by JS
`Number(...)` (no sign allowed). -/
def isRadixLiteral (l : List Char) : Bool :=
  match l with
  | '0' :: c :: ds =>
    if c = 'x' || c = 'X' then !ds.isEmpty && ds.all isHexDigit
    else if c = 'o' || c = 'O' then
      !ds.isEmpty && ds.all (fun d => '0' ≤ d && d ≤ '7')
    else if c = 'b' || c = 'B' then
      !ds.isEmpty && ds.all (fun d => d = '0' || d = '1')
    else false
  | _ => false

/-- Model of `!isNaN(Number(s))`: after trimming whitespace, the string is
empty (`Number('') = 0`) or a signed decimal literal, a signed `Infinity`,
or a radix literal. -/
def jsIsNumeric (l : List Char) : Bool :=
  let t := jsTrimChars l
  t.isEmpty || isSigned isDecLiteral t ||
    isSigned (fun x => x = "Infinity".data) t || isRadixLiteral t

/-- `/^\d{4}-\d{2}-\d{2}$/.test(s)`. -/
def isIsoDate (l : List Char) : Bool :=
  match l with
  | [y1, y2, y3, y4, s1, m1, m2, s2, d1, d2] =>
    y1.isDigit && y2.isDigit && y3.isDigit && y4.isDigit && s1 = '-' &&
      m1.isDigit && m2.isDigit && s2 = '-' && d1.isDigit && d2.isDigit
  | _ => false

/-- `convertToMySQLDate` from `src/routes/idCards.ts`, on the
character-list view: split on `/`; with three truthy numeric parts
produce `year-month-day` (parts padded to two characters); otherwise pass
through a string already matching `YYYY-MM-DD`; otherwise `null`. The
falsy test `!dateString` on a string is the emptiness test. -/
def convertToMySQLDate (dateString : List Char) : Option (List Char) :=
  if dateString.isEmpty then none
  else
    match jsSplit '/' dateString with
    | [day, month, year] =>
      if !day.isEmpty && !month.isEmpty && !year.isEmpty &&
          jsIsNumeric day && jsIsNumeric month && jsIsNumeric year then
        some (year ++ '-' :: (padStart2 month ++ '-' :: padStart2 day))
      else if isIsoDate dateString then some dateString
      else none
    | _ =>
      if isIsoDate dateString then some dateString
      else none

/-- The test the handler applies to a slash-separated date: exactly three
truthy parts, each passing `!isNaN(Number(part))`. This is the
"DD/MM/YYYY with numeric parts" shape of the conversion. -/
def isSlashNumericDate (l : List Char) : Bool :=
  match jsSplit '/' l with
  | [day, month, year] =>
    !day.isEmpty && !month.isEmpty && !year.isEmpty &&
      jsIsNumeric day && jsIsNumeric month && jsIsNumeric year
  | _ => false

/-- `convertToDisplayDate` from `src/routes/idCards.ts`, string branch
(the `Date`-object branch is not reachable from the string output of
`convertToMySQLDate`): split on `-`; three parts become `day/month/year`,
anything else passes through; a falsy input gives `null`. -/
def convertToDisplayDate (mysqlDate : List Char) : Option (List Char) :=
  if mysqlDate.isEmpty then none
  else
    match jsSplit '-' mysqlDate with
    | [year, month, day] => some (day ++ '/' :: (month ++ '/' :: year))
    | _ => some mysqlDate

/-- A row of the `id_cards` table (columns of the route's INSERT). -/
structure IdCardRow where
  id : Nat
  template_id : Nat
  organization_id : Option Nat
  department : Option String
  created_by : Nat
  name : String
  id_no : String
  father_name : Option String
  mother_name : Option String
  dob : Option String
  blood_group : Option String
  address : Option String
  mobile : Option String
  email : Option String
  photo_url : String
  status : String
  expiry_date : Option String
deriving DecidableEq, Repr

inductive CardsResult where
  | ok (cards : List IdCardRow)
  | err (status : Nat) (error : String)
deriving DecidableEq, Repr

/-- Handler of `GET /api/id-cards` (after `authenticateToken` and
`sanitizeUserData`): owner sees all cards; admin sees the cards of their
(defaulted) organization id; staff sees the cards they created whose
department matches their sanitized department or is NULL (the SQL
`? IS NULL` disjunct is constantly false because `SafeUser.department`
is never null); any other role leaves `query = ''` and
`pool.execute('')` throws, caught as a 500. The date/JSON display mapping
applied to each returned row is omitted: it does not change which rows
are returned. -/
def getAll (u : JWTUser) (db : List IdCardRow) : CardsResult :=
  let safeUser := UserServices.getUserWithDefaults u
  if safeUser.role = "owner" then
    .ok db
  else if safeUser.role = "admin" then
    .ok (db.filter (fun c => c.organization_id == some safeUser.organization_id))
  else if safeUser.role = "staff" then
    .ok (db.filter (fun c =>
      c.created_by == safeUser.id &&
        (c.department == some safeUser.department || c.department == none || false)))
  else
    .err 500 "Internal server error"

/-- Database state seen by `POST /api/id-cards`. -/
structure CardsState where
  cards : List IdCardRow
  templates : List Templates.TemplateRow
  nextId : Nat
deriving DecidableEq, Repr

/-- Body of `POST /api/id-cards`. -/
structure CreateCardBody where
  templateId : Option Nat
  name : Option String
  idNo : Option String
  fatherName : Option String
  motherName : Option String
  dob : Option String
  bloodGroup : Option String
  address : Option String
  mobile : Option String
  email : Option String
  department : Option String
  photoUrl : Option String
  expiryDate : Option String
deriving DecidableEq, Repr

inductive CreateCardResult where
  | created (status : Nat) (idCardId : Nat)
  | err (status : Nat) (error : String)
deriving DecidableEq, Repr

/-- JS `v || null` on a nullable string. -/
def orNull (x : Option String) : Option String :=
  match x with
  | none => none
  | some s => if s = "" then none else some s

/-- The template-driven `missingFields` accumulation of the handler, in
source order. -/
def missingFields (req : List String) (b : CreateCardBody) : List String :=
  (if req.contains "name" && !jsTruthyStr b.name then ["name"] else []) ++
  (if req.contains "id_no" && !jsTruthyStr b.idNo then ["id_no"] else []) ++
  (if req.contains "photo" && !jsTruthyStr b.photoUrl then ["photo"] else []) ++
  (if req.contains "mobile" && !jsTruthyStr b.mobile then ["mobile"] else []) ++
  (if req.contains "dob" && !jsTruthyStr b.dob then ["dob"] else []) ++
  (if req.contains "blood_group" && !jsTruthyStr b.bloodGroup then ["blood_group"] else []) ++
  (if req.contains "email" && !jsTruthyStr b.email then ["email"] else []) ++
  (if req.contains "address" && !jsTruthyStr b.address then ["address"] else []) ++
  (if req.contains "father_name" && !jsTruthyStr b.fatherName then ["father_name"] else []) ++
  (if req.contains "mother_name" && !jsTruthyStr b.motherName then ["mother_name"] else [])

/-- `convertToMySQLDate` lifted to the nullable string fields of the body
(a missing or empty date converts to `null`). -/
def toMySQLDateOpt (x : Option String) : Option String :=
  match x with
  | none => none
  | some s => (convertToMySQLDate s.data).map (fun l => String.mk l)

/-- Handler of `POST /api/id-cards`, including the `requireRole(['admin',
'staff'])` gate and the `getUserForIdCardOperations` business check:
validation, template lookup scoped to the caller's organization,
template-driven required fields, the per-creator card-count limit
(`maxIdCards`), the per-organization `id_no` duplicate check, then one
insert. -/
def create (u : JWTUser) (body : CreateCardBody)
    (st : CardsState) : CreateCardResult × CardsState :=
  if !(["admin", "staff"].contains u.role) then
    (.err 403 "Insufficient permissions", st)
  else
    let businessUser := UserServices.getUserForIdCardOperations u
    if !businessUser.canCreateTemplates then
      (.err 403 "Not authorized to create ID cards", st)
    else if !jsTruthyNat body.templateId || !jsTruthyStr body.name ||
        !jsTruthyStr body.idNo || !jsTruthyStr body.photoUrl then
      (.err 400 "Template, name, ID number, and photo are required", st)
    else
      let organizationId := u.organization_id
      let createdBy := u.id
      match st.templates.filter (fun t =>
          some t.id == body.templateId &&
            some t.organization_id == organizationId) with
      | [] => (.err 400 "Invalid template", st)
      | template :: _ =>
        let requiredFields := template.fields
        let missing := missingFields requiredFields body
        if missing ≠ [] then
          (.err 400 ("Missing required fields: " ++
                     String.intercalate ", " missing), st)
        else
          let currentCount := (st.cards.filter (fun c =>
            c.created_by == u.id)).length
          if currentCount ≥ businessUser.maxIdCards then
            (.err 400 ("Maximum ID card limit (" ++
                       toString businessUser.maxIdCards ++
                       ") reached. Please contact administrator."), st)
          else if (st.cards.filter (fun c =>
              c.id_no == body.idNo.getD "" &&
                c.organization_id == organizationId)) ≠ [] then
            (.err 400 "ID number already exists in this organization", st)
          else
            let row : IdCardRow :=
              { id := st.nextId, template_id := body.templateId.getD 0,
                organization_id := organizationId,
                department := orNull body.department,
                created_by := createdBy,
                name := body.name.getD "", id_no := body.idNo.getD "",
                father_name := orNull body.fatherName,
                mother_name := orNull body.motherName,
                dob := toMySQLDateOpt body.dob,
                blood_group := orNull body.bloodGroup,
                address := orNull body.address,
                mobile := orNull body.mobile,
                email := orNull body.email,
                photo_url := body.photoUrl.getD "", status := "active",
                expiry_date := match body.expiryDate with
                               | none => none
                               | some e =>
                                 if e = "" then none
                                 else toMySQLDateOpt (some e) }
            (.created 201 st.nextId,
             { cards := st.cards ++ [row], templates := st.templates,
               nextId := st.nextId + 1 })

end IdCards

/-! ## authenticateToken middleware (src/middleware/auth.ts) -/

namespace Auth

inductive AuthOutcome where
  | reject (status : Nat) (error : String)
  | proceed (user : JWTUser)
deriving DecidableEq, Repr

/-- `const token = authHeader && authHeader.split(' ')[1]`: the extracted
bearer token, with `none` standing for any falsy JS value (`undefined`,
`''`, or a falsy header short-circuiting the `&&`). -/
def extractToken (authHeader : Option String) : Option String :=
  match authHeader with
  | none => none
  | some h =>
    if h = "" then none
    else
      match (jsSplit ' ' h.data).get? 1 with
      | none => none
      | some cs => if cs = [] then none else some (String.mk cs)

/-- The `authenticateToken` middleware. `verify` abstracts
`jwt.verify(token, JWT_SECRET)`: `none` is a verification error, `some u`
the decoded payload. -/
def authenticateToken (verify : String → Option JWTUser)
    (authHeader : Option String) : AuthOutcome :=
  match extractToken authHeader with
  | none => .reject 401 "Access token required"
  | some t =>
    match verify t with
    | none => .reject 403 "Invalid or expired token"
    | some u => .proceed u

/-- The `requireRole(roles)` middleware, run after `authenticateToken`. -/
def requireRole (roles : List String) (u : JWTUser) : Option AuthOutcome :=
  if !roles.contains u.role then some (.reject 403 "Insufficient permissions")
  else none

/-! ## POST /api/auth/login (src/routes/auth.ts) -/

/-- The JWT payload signed by the login handler. -/
structure TokenPayload where
  id : Nat
  mobile : String
  role : String
  organization_id : Option Nat
  department : String
deriving DecidableEq, Repr

inductive LoginResult where
  | ok (payload : TokenPayload)
  | err (status : Nat) (error : String)
deriving DecidableEq, Repr

/-- Handler of `POST /api/auth/login`. `verifyPin pin hash` abstracts
`bcrypt.compare`. The body fields are nullable strings; JS truthiness of
`mobile`/`pin` gates the 400. The SQL query
`SELECT * FROM users WHERE mobile = ? AND status = "active"` is the list
filter; the handler uses its first row. -/
def login (verifyPin : String → String → Bool) (db : List UserRow)
    (mobile pin : Option String) : LoginResult :=
  if !jsTruthyStr mobile || !jsTruthyStr pin then
    .err 400 "Mobile and PIN are required"
  else
    match db.filter (fun u => u.mobile == mobile.getD "" && u.status == "active") with
    | [] => .err 401 "Invalid mobile or PIN"
    | user :: _ =>
      if !verifyPin (pin.getD "") user.pin_hash then
        .err 401 "Invalid mobile or PIN"
      else
        .ok { id := user.id, mobile := user.mobile, role := user.role,
              organization_id := user.organization_id,
              department := jsOrStr user.department "General" }

end Auth

end IdApp

namespace IdApp

/-! ### Helper lemmas -/

theorem jsSplit_of_all_ne (sep : Char) (l : List Char)
    (h : ∀ c ∈ l, c ≠ sep) : jsSplit sep l = [l] := by
  induction l with
  | nil => rfl
  | cons a t ih =>
    have ha := h a (List.mem_cons_self a t)
    have ht : jsSplit sep t = [t] := ih (fun c hc => h c (List.mem_cons_of_mem a hc))
    simp [jsSplit, ht, ha]

theorem jsSplit_append (sep : Char) (l r : List Char)
    (h : ∀ c ∈ l, c ≠ sep) : jsSplit sep (l ++ sep :: r) = l :: jsSplit sep r := by
  induction l with
  | nil =>
    simp [jsSplit]
  | cons a t ih =>
    have ha := h a (List.mem_cons_self a t)
    have ht := ih (fun c hc => h c (List.mem_cons_of_mem a hc))
    simp only [List.cons_append, jsSplit, List.append_eq, ht, if_neg ha]

theorem takeWhile_eq_self_of_all (p : Char → Bool) (l : List Char)
    (h : ∀ c ∈ l, p c = true) : l.takeWhile p = l := by
  induction l with
  | nil => rfl
  | cons a t ih =>
    have ha := h a (List.mem_cons_self a t)
    have ht := ih (fun c hc => h c (List.mem_cons_of_mem a hc))
    simp [List.takeWhile_cons, ha, ht]

theorem dropWhile_eq_nil_of_all (p : Char → Bool) (l : List Char)
    (h : ∀ c ∈ l, p c = true) : l.dropWhile p = [] := by
  induction l with
  | nil => rfl
  | cons a t ih =>
    have ha := h a (List.mem_cons_self a t)
    have ht := ih (fun c hc => h c (List.mem_cons_of_mem a hc))
    simp [List.dropWhile_cons, ha, ht]

theorem dropWhile_eq_self_of_all_not (p : Char → Bool) (l : List Char)
    (h : ∀ c ∈ l, p c = false) : l.dropWhile p = l := by
  cases l with
  | nil => rfl
  | cons a t =>
    have ha := h a (List.mem_cons_self a t)
    simp [List.dropWhile_cons, ha]

theorem jsTrimChars_id (l : List Char)
    (h : ∀ c ∈ l, jsWhitespace c = false) : jsTrimChars l = l := by
  unfold jsTrimChars
  rw [dropWhile_eq_self_of_all_not _ _ h]
  rw [dropWhile_eq_self_of_all_not _ _ (fun c hc => h c (List.mem_reverse.mp hc))]
  exact l.reverse_reverse

theorem digit_ne {c : Char} (d : Char) (h : c.isDigit = true)
    (hd : d.isDigit = false) : c ≠ d := by
  intro he
  rw [he, hd] at h
  exact Bool.noConfusion h

theorem digit_not_ws {c : Char} (h : c.isDigit = true) : jsWhitespace c = false := by
  have h1 := digit_ne ' ' h (by decide)
  have h2 := digit_ne '\t' h (by decide)
  have h3 := digit_ne '\n' h (by decide)
  have h4 := digit_ne '\r' h (by decide)
  have h5 := digit_ne '\x0b' h (by decide)
  have h6 := digit_ne '\x0c' h (by decide)
  simp [jsWhitespace, h1, h2, h3, h4, h5, h6]

theorem isDecMantissa_of_digits (l : List Char) (hne : l ≠ [])
    (h : ∀ c ∈ l, c.isDigit = true) : IdCards.isDecMantissa l = true := by
  unfold IdCards.isDecMantissa
  rw [takeWhile_eq_self_of_all _ _ h, dropWhile_eq_nil_of_all _ _ h]
  simpa using hne

theorem isDecLiteral_of_digits (l : List Char) (hne : l ≠ [])
    (h : ∀ c ∈ l, c.isDigit = true) : IdCards.isDecLiteral l = true := by
  have hnotexp : ∀ c ∈ l, (!(c = 'e' || c = 'E')) = true := by
    intro c hc
    have h1 := digit_ne 'e' (h c hc) (by decide)
    have h2 := digit_ne 'E' (h c hc) (by decide)
    simp [h1, h2]
  unfold IdCards.isDecLiteral
  rw [takeWhile_eq_self_of_all _ _ hnotexp, dropWhile_eq_nil_of_all _ _ hnotexp]
  exact isDecMantissa_of_digits l hne h

theorem jsIsNumeric_of_digits (l : List Char) (hne : l ≠ [])
    (h : ∀ c ∈ l, c.isDigit = true) : IdCards.jsIsNumeric l = true := by
  have htrim : jsTrimChars l = l :=
    jsTrimChars_id l (fun c hc => digit_not_ws (h c hc))
  have hsig : IdCards.isSigned IdCards.isDecLiteral l = true := by
    cases l with
    | nil => exact absurd rfl hne
    | cons a t =>
      have ha := h a (List.mem_cons_self a t)
      have h1 := digit_ne '+' ha (by decide)
      have h2 := digit_ne '-' ha (by decide)
      have hcond : (decide (a = '+') || decide (a = '-')) = false := by
        simp [h1, h2]
      simp only [IdCards.isSigned, hcond, Bool.false_eq_true, if_false]
      exact isDecLiteral_of_digits (a :: t) hne h
  unfold IdCards.jsIsNumeric
  rw [htrim]
  simp [hsig]

/-- **C8.** The ID-card date conversions round-trip: for every
`DD/MM/YYYY` string with two-digit numeric day and month and four-digit
numeric year, `convertToMySQLDate` yields exactly `YYYY-MM-DD` and
`convertToDisplayDate` maps that back to the original string; and for
every input that is neither a slash-separated date with (truthy) numeric
parts nor already of the `YYYY-MM-DD` shape, `convertToMySQLDate`
returns null. -/
theorem idcards_date_roundtrip :
    (∀ d1 d2 m1 m2 y1 y2 y3 y4 : Char,
      d1.isDigit = true → d2.isDigit = true → m1.isDigit = true →
      m2.isDigit = true → y1.isDigit = true → y2.isDigit = true →
      y3.isDigit = true → y4.isDigit = true →
      IdCards.convertToMySQLDate [d1, d2, '/', m1, m2, '/', y1, y2, y3, y4] =
        some [y1, y2, y3, y4, '-', m1, m2, '-', d1, d2] ∧
      IdCards.convertToDisplayDate [y1, y2, y3, y4, '-', m1, m2, '-', d1, d2] =
        some [d1, d2, '/', m1, m2, '/', y1, y2, y3, y4]) ∧
    (∀ s : List Char, IdCards.isSlashNumericDate s = false →
      IdCards.isIsoDate s = false → IdCards.convertToMySQLDate s = none) := by
  constructor
  · intro d1 d2 m1 m2 y1 y2 y3 y4 hd1 hd2 hm1 hm2 hy1 hy2 hy3 hy4
    have hdm : ∀ c ∈ ([d1, d2] : List Char), c ≠ '/' := by
      intro c hc
      simp at hc
      rcases hc with rfl | rfl
      · exact digit_ne '/' hd1 (by decide)
      · exact digit_ne '/' hd2 (by decide)
    have hmm : ∀ c ∈ ([m1, m2] : List Char), c ≠ '/' := by
      intro c hc
      simp at hc
      rcases hc with rfl | rfl
      · exact digit_ne '/' hm1 (by decide)
      · exact digit_ne '/' hm2 (by decide)
    have hym : ∀ c ∈ ([y1, y2, y3, y4] : List Char), c ≠ '/' := by
      intro c hc
      simp at hc
      rcases hc with rfl | rfl | rfl | rfl
      · exact digit_ne '/' hy1 (by decide)
      · exact digit_ne '/' hy2 (by decide)
      · exact digit_ne '/' hy3 (by decide)
      · exact digit_ne '/' hy4 (by decide)
    have hsplit : jsSplit '/' [d1, d2, '/', m1, m2, '/', y1, y2, y3, y4] =
        [[d1, d2], [m1, m2], [y1, y2, y3, y4]] := by
      rw [show ([d1, d2, '/', m1, m2, '/', y1, y2, y3, y4] : List Char) =
        [d1, d2] ++ '/' :: ([m1, m2] ++ '/' :: [y1, y2, y3, y4]) from rfl]
      rw [jsSplit_append '/' [d1, d2] _ hdm]
      rw [jsSplit_append '/' [m1, m2] _ hmm]
      rw [jsSplit_of_all_ne '/' [y1, y2, y3, y4] hym]
    have hn1 : IdCards.jsIsNumeric [d1, d2] = true := by
      refine jsIsNumeric_of_digits _ (by simp) ?_
      intro c hc
      simp at hc
      rcases hc with rfl | rfl <;> assumption
    have hn2 : IdCards.jsIsNumeric [m1, m2] = true := by
      refine jsIsNumeric_of_digits _ (by simp) ?_
      intro c hc
      simp at hc
      rcases hc with rfl | rfl <;> assumption
    have hn3 : IdCards.jsIsNumeric [y1, y2, y3, y4] = true := by
      refine jsIsNumeric_of_digits _ (by simp) ?_
      intro c hc
      simp at hc
      rcases hc with rfl | rfl | rfl | rfl <;> assumption
    constructor
    · unfold IdCards.convertToMySQLDate
      rw [hsplit]
      simp [hn1, hn2, hn3, IdCards.padStart2]
    · have hdashY : ∀ c ∈ ([y1, y2, y3, y4] : List Char), c ≠ '-' := by
        intro c hc
        simp at hc
        rcases hc with rfl | rfl | rfl | rfl
        · exact digit_ne '-' hy1 (by decide)
        · exact digit_ne '-' hy2 (by decide)
        · exact digit_ne '-' hy3 (by decide)
        · exact digit_ne '-' hy4 (by decide)
      have hdashM : ∀ c ∈ ([m1, m2] : List Char), c ≠ '-' := by
        intro c hc
        simp at hc
        rcases hc with rfl | rfl
        · exact digit_ne '-' hm1 (by decide)
        · exact digit_ne '-' hm2 (by decide)
      have hdashD : ∀ c ∈ ([d1, d2] : List Char), c ≠ '-' := by
        intro c hc
        simp at hc
        rcases hc with rfl | rfl
        · exact digit_ne '-' hd1 (by decide)
        · exact digit_ne '-' hd2 (by decide)
      have hsplit2 : jsSplit '-' [y1, y2, y3, y4, '-', m1, m2, '-', d1, d2] =
          [[y1, y2, y3, y4], [m1, m2], [d1, d2]] := by
        rw [show ([y1, y2, y3, y4, '-', m1, m2, '-', d1, d2] : List Char) =
          [y1, y2, y3, y4] ++ '-' :: ([m1, m2] ++ '-' :: [d1, d2]) from rfl]
        rw [jsSplit_append '-' [y1, y2, y3, y4] _ hdashY]
        rw [jsSplit_append '-' [m1, m2] _ hdashM]
        rw [jsSplit_of_all_ne '-' [d1, d2] hdashD]
      unfold IdCards.convertToDisplayDate
      rw [hsplit2]
      simp
  · intro s h1 h2
    unfold IdCards.isSlashNumericDate at h1
    unfold IdCards.convertToMySQLDate
    cases hse : s.isEmpty with
    | true => simp [hse]
    | false =>
      simp only [hse, Bool.false_eq_true, if_false]
      rcases hsp : jsSplit '/' s with _ | ⟨p1, _ | ⟨p2, _ | ⟨p3, _ | ⟨p4, pr⟩⟩⟩⟩
      · simp [h2]
      · simp [h2]
      · simp [h2]
      · rw [hsp] at h1
        simp only [] at h1
        simp [h1, h2]
      · simp [h2]

/-- Witness for `idcards_date_roundtrip` at `15/08/2023` and at a
non-date string. -/
theorem idcards_date_roundtrip_witness :
    IdCards.convertToMySQLDate ['1', '5', '/', '0', '8', '/', '2', '0', '2', '3'] =
      some ['2', '0', '2', '3', '-', '0', '8', '-', '1', '5'] ∧
    IdCards.convertToDisplayDate ['2', '0', '2', '3', '-', '0', '8', '-', '1', '5'] =
      some ['1', '5', '/', '0', '8', '/', '2', '0', '2', '3'] ∧
    IdCards.convertToMySQLDate ['h', 'i'] = none := by
  refine ⟨?_, ?_, ?_⟩
  · exact (idcards_date_roundtrip.1 '1' '5' '0' '8' '2' '0' '2' '3'
      (by decide) (by decide) (by decide) (by decide) (by decide) (by decide)
      (by decide) (by decide)).1
  · exact (idcards_date_roundtrip.1 '1' '5' '0' '8' '2' '0' '2' '3'
      (by decide) (by decide) (by decide) (by decide) (by decide) (by decide)
      (by decide) (by decide)).2
  · exact idcards_date_roundtrip.2 ['h', 'i'] (by decide) (by decide)

/-- **C2 (counterexample).** The staff branch of `GET /api/id-cards` does
not return exactly the cards with `created_by` equal to the caller: a
staff user (department "General") who created a card carrying department
"Sales" gets an empty list, although the card's `created_by` is theirs. -/
theorem idcards_get_staff_scope_counterexample :
    IdCards.getAll
        { id := 1, mobile := "9", role := "staff", organization_id := some 2,
          department := some "General" }
        [{ id := 1, template_id := 5, organization_id := some 2,
           department := some "Sales", created_by := 1, name := "N",
           id_no := "X1", father_name := none, mother_name := none,
           dob := none, blood_group := none, address := none, mobile := none,
           email := none, photo_url := "p", status := "active",
           expiry_date := none }] = .ok [] ∧
    List.filter (fun (c : IdCards.IdCardRow) => c.created_by == 1)
        [{ id := 1, template_id := 5, organization_id := some 2,
           department := some "Sales", created_by := 1, name := "N",
           id_no := "X1", father_name := none, mother_name := none,
           dob := none, blood_group := none, address := none, mobile := none,
           email := none, photo_url := "p", status := "active",
           expiry_date := none }] =
      [{ id := 1, template_id := 5, organization_id := some 2,
         department := some "Sales", created_by := 1, name := "N",
         id_no := "X1", father_name := none, mother_name := none,
         dob := none, blood_group := none, address := none, mobile := none,
         email := none, photo_url := "p", status := "active",
         expiry_date := none }] ∧
    ([] : List IdCards.IdCardRow) ≠
      [{ id := 1, template_id := 5, organization_id := some 2,
         department := some "Sales", created_by := 1, name := "N",
         id_no := "X1", father_name := none, mother_name := none,
         dob := none, blood_group := none, address := none, mobile := none,
         email := none, photo_url := "p", status := "active",
         expiry_date := none }] := by
  refine ⟨rfl, rfl, ?_⟩
  decide

/-- **C2 (amended).** `GET /api/id-cards` scopes by role: an owner
receives every card; an admin receives exactly the cards whose
organization id equals the caller's; a staff caller receives exactly the
cards they created whose department is NULL or equals the caller's
sanitized department (`getUserWithDefaults`, which defaults a missing
staff department to "General"). -/
theorem idcards_get_role_scoped (u : JWTUser) (db : List IdCards.IdCardRow) :
    (u.role = "owner" → IdCards.getAll u db = .ok db) ∧
    (∀ v, u.role = "admin" → u.organization_id = some v →
      IdCards.getAll u db =
        .ok (db.filter (fun c => c.organization_id == some v))) ∧
    (u.role = "staff" →
      IdCards.getAll u db =
        .ok (db.filter (fun c =>
          c.created_by == u.id &&
            (c.department == some (UserServices.getUserWithDefaults u).department ||
             c.department == none)))) := by
  refine ⟨?_, ?_, ?_⟩
  · intro h
    simp [IdCards.getAll, UserServices.getUserWithDefaults, h]
  · intro v h hv
    simp [IdCards.getAll, UserServices.getUserWithDefaults, h, hv]
  · intro h
    simp [IdCards.getAll, UserServices.getUserWithDefaults, h]

/-- Witness for `idcards_get_role_scoped`: a staff caller sees their own
card when its department matches. -/
theorem idcards_get_role_scoped_witness :
    IdCards.getAll
        { id := 1, mobile := "9", role := "staff", organization_id := some 2,
          department := some "General" }
        [{ id := 1, template_id := 5, organization_id := some 2,
           department := some "General", created_by := 1, name := "N",
           id_no := "X1", father_name := none, mother_name := none,
           dob := none, blood_group := none, address := none, mobile := none,
           email := none, photo_url := "p", status := "active",
           expiry_date := none }] =
      .ok [{ id := 1, template_id := 5, organization_id := some 2,
             department := some "General", created_by := 1, name := "N",
             id_no := "X1", father_name := none, mother_name := none,
             dob := none, blood_group := none, address := none, mobile := none,
             email := none, photo_url := "p", status := "active",
             expiry_date := none }] := by
  have h := (idcards_get_role_scoped
    { id := 1, mobile := "9", role := "staff", organization_id := some 2,
      department := some "General" }
    [{ id := 1, template_id := 5, organization_id := some 2,
       department := some "General", created_by := 1, name := "N",
       id_no := "X1", father_name := none, mother_name := none,
       dob := none, blood_group := none, address := none, mobile := none,
       email := none, photo_url := "p", status := "active",
       expiry_date := none }]).2.2 rfl
  rw [h]
  rfl

/-- **C10.** Contrary to the claim, the per-creator limit check never
governs staff ID-card creation: every staff `POST /api/id-cards` request
is rejected with 403 "Not authorized to create ID cards" by the
`canCreateTemplates` test (true only for admin/owner), even with zero
existing cards — although `requireRole` admits staff and `getMaxIdCards`
grants staff a limit of 100. The identical request from an admin of the
same organization succeeds. -/
theorem idcards_create_staff_rejected :
    IdCards.create
        { id := 1, mobile := "9", role := "staff", organization_id := some 2,
          department := some "General" }
        { templateId := some 5, name := some "N", idNo := some "X1",
          fatherName := none, motherName := none, dob := none,
          bloodGroup := none, address := none, mobile := none, email := none,
          department := none, photoUrl := some "p.jpg", expiryDate := none }
        { cards := [],
          templates := [{ id := 5, name := "T", organization_id := 2,
                          card_size := "standard", orientation := "horizontal",
                          is_double_sided := false,
                          background_color := "#ffffff",
                          text_color := "#000000",
                          background_image_url := none,
                          fields := ["name", "photo"] }],
          nextId := 1 } =
      (.err 403 "Not authorized to create ID cards",
       { cards := [],
         templates := [{ id := 5, name := "T", organization_id := 2,
                         card_size := "standard", orientation := "horizontal",
                         is_double_sided := false,
                         background_color := "#ffffff",
                         text_color := "#000000",
                         background_image_url := none,
                         fields := ["name", "photo"] }],
         nextId := 1 }) ∧
    UserServices.getMaxIdCards "staff" = 100 ∧
    (IdCards.create
        { id := 1, mobile := "9", role := "admin", organization_id := some 2,
          department := some "General" }
        { templateId := some 5, name := some "N", idNo := some "X1",
          fatherName := none, motherName := none, dob := none,
          bloodGroup := none, address := none, mobile := none, email := none,
          department := none, photoUrl := some "p.jpg", expiryDate := none }
        { cards := [],
          templates := [{ id := 5, name := "T", organization_id := 2,
                          card_size := "standard", orientation := "horizontal",
                          is_double_sided := false,
                          background_color := "#ffffff",
                          text_color := "#000000",
                          background_image_url := none,
                          fields := ["name", "photo"] }],
          nextId := 1 }).1 = .created 201 1 := by
  refine ⟨rfl, rfl, rfl⟩

/-- **C1.** For every authenticated `GET /api/users` request, the returned
user list is scoped by the caller's role: an owner receives every user
row; an admin with a (non-null, positive) organization id receives exactly
the rows of that organization; an admin with no organization id receives a
400 error; every other caller receives exactly their own row. -/
theorem users_get_role_scoped (u : JWTUser) (db : List UserRow) :
    (u.role = "owner" → Users.getAll u db = .ok (db.map Users.selectPublic)) ∧
    (u.role = "admin" → u.organization_id = none →
      Users.getAll u db = .err 400 "Admin has no Organization linked!") ∧
    (∀ v, u.role = "admin" → u.organization_id = some v → v ≠ 0 →
      Users.getAll u db =
        .ok ((db.filter (fun r => r.organization_id == some v)).map Users.selectPublic)) ∧
    (u.role ≠ "owner" → u.role ≠ "admin" →
      Users.getAll u db = .ok ((db.filter (fun r => r.id == u.id)).map Users.selectPublic)) := by
  refine ⟨?_, ?_, ?_, ?_⟩
  · intro h
    simp [Users.getAll, h]
  · intro h hn
    simp [Users.getAll, h, hn, jsTruthyNat]
  · intro v h hv hvz
    simp [Users.getAll, h, hv, jsTruthyNat, hvz]
  · intro h1 h2
    simp [Users.getAll, h1, h2]

/-- Witness for `users_get_role_scoped` at a concrete admin caller. -/
theorem users_get_role_scoped_witness :
    Users.getAll
        { id := 7, mobile := "9000000001", role := "admin",
          organization_id := some 2, department := none }
        [{ id := 7, name := "A", mobile := "9000000001", pin_hash := "h1",
           role := "admin", organization_id := some 2, department := none,
           email := none, status := "active" },
         { id := 8, name := "B", mobile := "9000000002", pin_hash := "h2",
           role := "staff", organization_id := some 3, department := none,
           email := none, status := "active" }] =
      .ok [{ id := 7, name := "A", mobile := "9000000001", role := "admin",
             department := none, status := "active" }] := by
  have h := users_get_role_scoped
    { id := 7, mobile := "9000000001", role := "admin",
      organization_id := some 2, department := none }
    [{ id := 7, name := "A", mobile := "9000000001", pin_hash := "h1",
       role := "admin", organization_id := some 2, department := none,
       email := none, status := "active" },
     { id := 8, name := "B", mobile := "9000000002", pin_hash := "h2",
       role := "staff", organization_id := some 3, department := none,
       email := none, status := "active" }]
  have h2 := h.2.2.1 2 rfl rfl (by decide)
  rw [h2]
  rfl

/-- **C6.** Every endpoint guarded by `authenticateToken` requires JWT
bearer auth: with no bearer token the response is 401
"Access token required"; with a token that fails verification the response
is 403 "Invalid or expired token"; the route handler runs (the middleware
proceeds) only when verification succeeds, with `req.user` set to the
decoded payload. -/
theorem authenticate_token_gate (verify : String → Option JWTUser)
    (authHeader : Option String) :
    (Auth.extractToken authHeader = none →
      Auth.authenticateToken verify authHeader = .reject 401 "Access token required") ∧
    (∀ t, Auth.extractToken authHeader = some t → verify t = none →
      Auth.authenticateToken verify authHeader = .reject 403 "Invalid or expired token") ∧
    (∀ t u, Auth.extractToken authHeader = some t → verify t = some u →
      Auth.authenticateToken verify authHeader = .proceed u) ∧
    (∀ u, Auth.authenticateToken verify authHeader = .proceed u →
      ∃ t, Auth.extractToken authHeader = some t ∧ verify t = some u) := by
  refine ⟨?_, ?_, ?_, ?_⟩
  · intro h
    simp [Auth.authenticateToken, h]
  · intro t ht hv
    simp [Auth.authenticateToken, ht, hv]
  · intro t u ht hv
    simp [Auth.authenticateToken, ht, hv]
  · intro u h
    unfold Auth.authenticateToken at h
    cases he : Auth.extractToken authHeader with
    | none => simp [he] at h
    | some t =>
      cases hv : verify t with
      | none => simp [he, hv] at h
      | some w =>
        simp [he, hv] at h
        refine ⟨t, rfl, ?_⟩
        rw [hv, h]

/-- Witness for `authenticate_token_gate`: missing header yields 401. -/
theorem authenticate_token_gate_witness :
    Auth.authenticateToken (fun _ => none) none = .reject 401 "Access token required" :=
  (authenticate_token_gate (fun _ => none) none).1 rfl

/-- **C7.** `POST /api/auth/login`: missing mobile or pin gives 400; no
active user with the mobile, or PIN verification failure against the found
user's stored hash, both give 401 with the identical message
"Invalid mobile or PIN"; on success the response token payload carries the
user's id, mobile, role and organization_id. -/
theorem login_behaviour (verifyPin : String → String → Bool)
    (db : List UserRow) (mobile pin : Option String) :
    (mobile = none ∨ mobile = some "" ∨ pin = none ∨ pin = some "" →
      Auth.login verifyPin db mobile pin = .err 400 "Mobile and PIN are required") ∧
    (jsTruthyStr mobile → jsTruthyStr pin →
      db.filter (fun u => u.mobile == mobile.getD "" && u.status == "active") = [] →
      Auth.login verifyPin db mobile pin = .err 401 "Invalid mobile or PIN") ∧
    (∀ user rest, jsTruthyStr mobile → jsTruthyStr pin →
      db.filter (fun u => u.mobile == mobile.getD "" && u.status == "active") = user :: rest →
      verifyPin (pin.getD "") user.pin_hash = false →
      Auth.login verifyPin db mobile pin = .err 401 "Invalid mobile or PIN") ∧
    (∀ user rest, jsTruthyStr mobile → jsTruthyStr pin →
      db.filter (fun u => u.mobile == mobile.getD "" && u.status == "active") = user :: rest →
      verifyPin (pin.getD "") user.pin_hash = true →
      ∃ p, Auth.login verifyPin db mobile pin = .ok p ∧
        p.id = user.id ∧ p.mobile = user.mobile ∧ p.role = user.role ∧
        p.organization_id = user.organization_id) := by
  refine ⟨?_, ?_, ?_, ?_⟩
  · intro h
    rcases h with h | h | h | h <;> simp [Auth.login, h, jsTruthyStr]
  · intro hm hp hf
    simp [Auth.login, hm, hp, hf]
  · intro user rest hm hp hf hv
    simp [Auth.login, hm, hp, hf, hv]
  · intro user rest hm hp hf hv
    refine ⟨{ id := user.id, mobile := user.mobile, role := user.role,
              organization_id := user.organization_id,
              department := jsOrStr user.department "General" },
            ?_, rfl, rfl, rfl, rfl⟩
    simp [Auth.login, hm, hp, hf, hv]

/-- **C3.** Template-name uniqueness per organization is a
query-before-insert check: when the admin's organization already contains
a template with the same trimmed name, `POST /api/templates` answers 409
"Template name already exists" and leaves the templates table unchanged;
with valid input and no duplicate, exactly one row is inserted and the
handler answers 201. -/
theorem templates_create_unique_name (u : JWTUser) (body : Templates.CreateTemplateBody)
    (st : Templates.TemplatesState) (n : String) (org : Nat) (fs : List String)
    (hname : body.name = some n) (hnz : jsTrimStr n ≠ "")
    (horg : u.organization_id = some org) (horgz : org ≠ 0)
    (horgex : st.orgIds.contains org = true)
    (hfields : body.fields = some fs) (hfnz : fs ≠ [])
    (hfok : ∀ f ∈ fs, Templates.AVAILABLE_FIELDS.contains f = true) :
    ((∃ t ∈ st.templates, t.name = jsTrimStr n ∧ t.organization_id = org) →
      Templates.create u body st = (.err 409 "Template name already exists", st)) ∧
    ((∀ t ∈ st.templates, ¬(t.name = jsTrimStr n ∧ t.organization_id = org)) →
      ∃ row,
        Templates.create u body st =
          (.created 201 st.nextId,
           { templates := st.templates ++ [row], orgIds := st.orgIds,
             nextId := st.nextId + 1 }) ∧
        row.name = jsTrimStr n ∧ row.organization_id = org ∧ row.fields = fs) := by
  have hfall : ∀ x ∈ fs, x ∈ Templates.AVAILABLE_FIELDS := by
    intro f hf
    have := hfok f hf
    simpa using this
  have hnex : ¬ ∃ x ∈ fs, x ∉ Templates.AVAILABLE_FIELDS := by
    rintro ⟨x, hx, hnx⟩
    exact hnx (hfall x hx)
  have horgmem : org ∈ st.orgIds := by
    simpa using horgex
  have hinv : fs.filter (fun f => !Templates.AVAILABLE_FIELDS.contains f) = [] := by
    rw [List.filter_eq_nil_iff]
    intro f hf
    simp [hfall f hf]
  constructor
  · intro hdup
    have hne : st.templates.filter
        (fun t => t.name == jsTrimStr n && t.organization_id == org) ≠ [] := by
      rcases hdup with ⟨t, ht, h1, h2⟩
      intro hnil
      rw [List.filter_eq_nil_iff] at hnil
      exact (hnil t ht) (by simp [h1, h2])
    simp [Templates.create, hname, hnz, horg, horgz, horgmem, hfields, hfnz,
      hinv, hne, hnex]
  · intro hnone
    have heq : st.templates.filter
        (fun t => t.name == jsTrimStr n && t.organization_id == org) = [] := by
      rw [List.filter_eq_nil_iff]
      intro t ht
      have := hnone t ht
      simp only [beq_iff_eq, Bool.and_eq_true, not_and]
      intro h1
      simp [h1] at this ⊢
      exact this
    refine ⟨{ id := st.nextId, name := jsTrimStr n, organization_id := org,
              card_size := body.cardSize, orientation := body.orientation,
              is_double_sided := body.isDoubleSided,
              background_color := body.backgroundColor,
              text_color := body.textColor,
              background_image_url := match body.backgroundImageUrl with
                                      | none => none
                                      | some v => if v = "" then none else some v,
              fields := fs }, ?_, rfl, rfl, rfl⟩
    simp [Templates.create, hname, hnz, horg, horgz, horgmem, hfields, hfnz,
      hinv, heq, hnex]

/-- Witness for `templates_create_unique_name`: a duplicate trimmed name
in the same organization yields 409 and no insert. -/
theorem templates_create_unique_name_witness :
    Templates.create
        { id := 1, mobile := "9", role := "admin", organization_id := some 2,
          department := none }
        { name := some " Card ", cardSize := "standard",
          orientation := "horizontal", isDoubleSided := false,
          backgroundColor := "#ffffff", textColor := "#000000",
          backgroundImageUrl := none, fields := some ["name", "photo"] }
        { templates := [{ id := 1, name := "Card", organization_id := 2,
                          card_size := "standard", orientation := "horizontal",
                          is_double_sided := false, background_color := "#ffffff",
                          text_color := "#000000", background_image_url := none,
                          fields := ["name"] }],
          orgIds := [2], nextId := 9 } =
      (.err 409 "Template name already exists",
       { templates := [{ id := 1, name := "Card", organization_id := 2,
                         card_size := "standard", orientation := "horizontal",
                         is_double_sided := false, background_color := "#ffffff",
                         text_color := "#000000", background_image_url := none,
                         fields := ["name"] }],
         orgIds := [2], nextId := 9 }) := by
  have h := (templates_create_unique_name
    { id := 1, mobile := "9", role := "admin", organization_id := some 2,
      department := none }
    { name := some " Card ", cardSize := "standard",
      orientation := "horizontal", isDoubleSided := false,
      backgroundColor := "#ffffff", textColor := "#000000",
      backgroundImageUrl := none, fields := some ["name", "photo"] }
    { templates := [{ id := 1, name := "Card", organization_id := 2,
                      card_size := "standard", orientation := "horizontal",
                      is_double_sided := false, background_color := "#ffffff",
                      text_color := "#000000", background_image_url := none,
                      fields := ["name"] }],
      orgIds := [2], nextId := 9 }
    " Card " 2 ["name", "photo"]
    rfl (by decide) rfl (by decide) (by decide) rfl (by decide)
    (by decide)).1
  exact h ⟨{ id := 1, name := "Card", organization_id := 2,
             card_size := "standard", orientation := "horizontal",
             is_double_sided := false, background_color := "#ffffff",
             text_color := "#000000", background_image_url := none,
             fields := ["name"] }, by simp, by decide, by decide⟩

/-- **C4.** Mobile-number uniqueness for users is a query-before-insert
check: for an admin linked to an organization, `POST /api/users/register-staff`
answers 400 "Mobile already registered" and inserts nothing when any user
row already has the given mobile; otherwise it inserts exactly one user
row with role "staff", status "active" and the admin's organization id,
and answers 201. -/
theorem register_staff_unique_mobile (hashPin : String → String) (u : JWTUser)
    (body : Users.RegisterBody) (st : Users.UsersState) (org : Nat)
    (_hrole : u.role = "admin")
    (horg : u.organization_id = some org) (horgz : org ≠ 0) :
    ((∃ r ∈ st.users, r.mobile = body.mobile) →
      Users.registerStaff hashPin u body st =
        (.err 400 "Mobile already registered", st)) ∧
    ((∀ r ∈ st.users, r.mobile ≠ body.mobile) →
      ∃ row,
        Users.registerStaff hashPin u body st =
          (.created 201 st.nextId body.name body.mobile,
           { users := st.users ++ [row], nextId := st.nextId + 1 }) ∧
        row.role = "staff" ∧ row.status = "active" ∧
        row.organization_id = some org ∧ row.mobile = body.mobile) := by
  have htru : jsTruthyNat u.organization_id = true := by
    simp [jsTruthyNat, horg, horgz]
  constructor
  · intro hdup
    have hne : st.users.filter (fun r => r.mobile == body.mobile) ≠ [] := by
      rcases hdup with ⟨r, hr, h1⟩
      intro hnil
      rw [List.filter_eq_nil_iff] at hnil
      exact (hnil r hr) (by simp [h1])
    simp [Users.registerStaff, htru, hne]
  · intro hnone
    have heq : st.users.filter (fun r => r.mobile == body.mobile) = [] := by
      rw [List.filter_eq_nil_iff]
      intro r hr
      simp [hnone r hr]
    refine ⟨{ id := st.nextId, name := body.name, mobile := body.mobile,
              pin_hash := hashPin body.pin, role := "staff",
              organization_id := u.organization_id,
              department := body.department,
              email := match body.email with
                       | none => none
                       | some e => if e = "" then none else some e,
              status := "active" }, ?_, rfl, rfl, by rw [horg], rfl⟩
    simp [Users.registerStaff, htru, heq]

/-- **C5.** Organization creation is transactional: for every valid
`POST /api/organizations` request, the organization row and its admin
user row (same mobile, same pin hash, role "admin", status "active",
organization_id the new organization's id) are created atomically —
either both inserts succeed and both rows exist after the request, or the
transaction is rolled back and the database state is unchanged. -/
theorem organizations_create_transactional (hashPin : String → String)
    (body : Organizations.CreateOrgBody) (st : Organizations.OrgState)
    (failOrg failAdmin : Option Organizations.DBErr)
    (h1 : body.name ≠ "") (h2 : body.address ≠ "") (h3 : body.mobile ≠ "")
    (h4 : body.email ≠ "") (h5 : body.contactPerson ≠ "")
    (h6 : body.designation ≠ "") (h7 : body.pin ≠ "")
    (hag : jsTruthyNat body.agentId = true)
    (hlen : body.pin.length = 4) (hdig : Organizations.pinAllDigits body.pin = true)
    (hagex : st.agents.filter (fun a =>
      some a.id == body.agentId && a.status == "active") ≠ [])
    (hnodupOrg : st.organizations.filter (fun o => o.name == body.name) = [])
    (hnodupAdm : st.users.filter (fun r =>
      r.mobile == body.mobile && r.role == "admin") = []) :
    (failOrg = none → failAdmin = none →
      ∃ orgRow adminRow,
        Organizations.create hashPin body failOrg failAdmin st =
          (.created 201 st.nextOrgId st.nextUserId,
           { organizations := st.organizations ++ [orgRow],
             users := st.users ++ [adminRow], agents := st.agents,
             nextOrgId := st.nextOrgId + 1, nextUserId := st.nextUserId + 1 }) ∧
        adminRow.mobile = body.mobile ∧ orgRow.mobile = body.mobile ∧
        adminRow.pin_hash = orgRow.pin_hash ∧
        adminRow.role = "admin" ∧ adminRow.status = "active" ∧
        adminRow.organization_id = some orgRow.id ∧ orgRow.id = st.nextOrgId) ∧
    (failOrg ≠ none ∨ failAdmin ≠ none →
      (Organizations.create hashPin body failOrg failAdmin st).2 = st) := by
  have hre : Organizations.requiredError body = none := by
    simp [Organizations.requiredError, h1, h2, h3, h4, h5, h6, h7, hag]
  have hle : Organizations.lookupError body st = none := by
    simp [Organizations.lookupError, hagex, hnodupOrg, hnodupAdm]
  have hval : Organizations.validate body st = none := by
    simp [Organizations.validate, hre, hle, hlen, hdig]
  have herr : ∀ e, (Organizations.errResponse e st).2 = st := by
    intro e
    simp only [Organizations.errResponse]
    split_ifs <;> rfl
  constructor
  · intro hfo hfa
    subst hfo hfa
    refine ⟨{ id := st.nextOrgId, name := body.name, address := body.address,
              mobile := body.mobile, email := body.email,
              contact_person := body.contactPerson,
              designation := body.designation, pin_hash := hashPin body.pin,
              logo_url := match body.logoUrl with
                          | none => none
                          | some v => if v = "" then none else some v,
              color := body.color, agent_id := body.agentId.getD 0 },
            { id := st.nextUserId, name := body.contactPerson,
              mobile := body.mobile, pin_hash := hashPin body.pin,
              role := "admin", organization_id := some st.nextOrgId,
              department := none, email := none, status := "active" },
            ?_, rfl, rfl, rfl, rfl, rfl, rfl, rfl⟩
    simp [Organizations.create, hval, Organizations.runTransaction]
  · intro hfail
    rcases hfo : failOrg with _ | e
    · rcases hfa : failAdmin with _ | e
      · exfalso
        rcases hfail with h | h
        · exact h hfo
        · exact h hfa
      · simp [Organizations.create, hval, Organizations.runTransaction, herr]
    · simp [Organizations.create, hval, Organizations.runTransaction, herr]

/-- Witness for `organizations_create_transactional`: with both inserts
succeeding, both rows are appended. -/
theorem organizations_create_transactional_witness :
    ∃ orgRow adminRow,
      Organizations.create (fun p => "H" ++ p)
          { name := "Org", address := "Addr", mobile := "9000000009",
            email := "a@b.c", contactPerson := "P", designation := "Mgr",
            pin := "1234", logoUrl := none, color := "#2563eb",
            agentId := some 3 }
          none none
          { organizations := [], users := [],
            agents := [{ id := 3, name := "Ag", status := "active" }],
            nextOrgId := 4, nextUserId := 20 } =
        (.created 201 4 20,
         { organizations := [] ++ [orgRow], users := [] ++ [adminRow],
           agents := [{ id := 3, name := "Ag", status := "active" }],
           nextOrgId := 5, nextUserId := 21 }) ∧
      adminRow.mobile = "9000000009" ∧ orgRow.mobile = "9000000009" ∧
      adminRow.pin_hash = orgRow.pin_hash ∧
      adminRow.role = "admin" ∧ adminRow.status = "active" ∧
      adminRow.organization_id = some orgRow.id ∧ orgRow.id = 4 := by
  exact (organizations_create_transactional (fun p => "H" ++ p)
    { name := "Org", address := "Addr", mobile := "9000000009",
      email := "a@b.c", contactPerson := "P", designation := "Mgr",
      pin := "1234", logoUrl := none, color := "#2563eb",
      agentId := some 3 }
    { organizations := [], users := [],
      agents := [{ id := 3, name := "Ag", status := "active" }],
      nextOrgId := 4, nextUserId := 20 }
    none none
    (by decide) (by decide) (by decide) (by decide) (by decide) (by decide)
    (by decide) (by decide) (by decide) (by decide) (by decide) (by decide)
    (by decide)).1 rfl rfl

/-- **C9.** `POST /api/organizations` accepts a PIN only when it is
exactly 4 characters, all decimal digits: whenever the pin fails either
condition the handler answers 400 before any database write (the state is
unchanged), and — when the preceding required-field checks pass — the
error is "PIN must be exactly 4 digits" or
"PIN must contain only numbers (0-9)". -/
theorem organizations_create_pin_validated (hashPin : String → String)
    (body : Organizations.CreateOrgBody) (st : Organizations.OrgState)
    (failOrg failAdmin : Option Organizations.DBErr)
    (hpin : body.pin.length ≠ 4 ∨ ¬(body.pin.data.all (fun c => c.isDigit))) :
    (∃ m, Organizations.create hashPin body failOrg failAdmin st = (.err 400 m, st)) ∧
    (body.name ≠ "" → body.address ≠ "" → body.mobile ≠ "" → body.email ≠ "" →
      body.contactPerson ≠ "" → body.designation ≠ "" → body.pin ≠ "" →
      jsTruthyNat body.agentId = true →
      ∃ m, Organizations.create hashPin body failOrg failAdmin st = (.err 400 m, st) ∧
        (m = "PIN must be exactly 4 digits" ∨
         m = "PIN must contain only numbers (0-9)")) := by
  have hnd : body.pin.length = 4 → Organizations.pinAllDigits body.pin = false := by
    intro hl
    rcases hpin with h | h
    · exact absurd hl h
    · simp [Organizations.pinAllDigits]
      intro _
      simpa using h
  have hvsome : ∃ m, Organizations.validate body st = some (400, m) := by
    rcases hrc : Organizations.requiredError body with _ | m
    · by_cases hl : body.pin.length = 4
      · refine ⟨"PIN must contain only numbers (0-9)", ?_⟩
        simp [Organizations.validate, hrc, hl, hnd hl]
      · refine ⟨"PIN must be exactly 4 digits", ?_⟩
        simp [Organizations.validate, hrc, hl]
    · refine ⟨m, ?_⟩
      simp [Organizations.validate, hrc]
  constructor
  · rcases hvsome with ⟨m, hm⟩
    refine ⟨m, ?_⟩
    simp [Organizations.create, hm]
  · intro h1 h2 h3 h4 h5 h6 h7 hag
    have hre : Organizations.requiredError body = none := by
      simp [Organizations.requiredError, h1, h2, h3, h4, h5, h6, h7, hag]
    by_cases hl : body.pin.length = 4
    · refine ⟨"PIN must contain only numbers (0-9)", ?_, Or.inr rfl⟩
      have hm : Organizations.validate body st =
          some (400, "PIN must contain only numbers (0-9)") := by
        simp [Organizations.validate, hre, hl, hnd hl]
      simp [Organizations.create, hm]
    · refine ⟨"PIN must be exactly 4 digits", ?_, Or.inl rfl⟩
      have hm : Organizations.validate body st =
          some (400, "PIN must be exactly 4 digits") := by
        simp [Organizations.validate, hre, hl]
      simp [Organizations.create, hm]

/-- Witness for `organizations_create_pin_validated`: a 5-digit pin is
rejected with 400 and no rows are written. -/
theorem organizations_create_pin_validated_witness :
    ∃ m, Organizations.create (fun p => "H" ++ p)
        { name := "Org", address := "Addr", mobile := "9000000009",
          email := "a@b.c", contactPerson := "P", designation := "Mgr",
          pin := "12345", logoUrl := none, color := "#2563eb",
          agentId := some 3 }
        none none
        { organizations := [], users := [], agents := [],
          nextOrgId := 1, nextUserId := 1 } =
      (.err 400 m,
       { organizations := [], users := [], agents := [],
         nextOrgId := 1, nextUserId := 1 }) ∧
      (m = "PIN must be exactly 4 digits" ∨
       m = "PIN must contain only numbers (0-9)") := by
  exact (organizations_create_pin_validated (fun p => "H" ++ p)
    { name := "Org", address := "Addr", mobile := "9000000009",
      email := "a@b.c", contactPerson := "P", designation := "Mgr",
      pin := "12345", logoUrl := none, color := "#2563eb",
      agentId := some 3 }
    { organizations := [], users := [], agents := [],
      nextOrgId := 1, nextUserId := 1 }
    none none
    (by decide)).2 (by decide) (by decide) (by decide) (by decide)
    (by decide) (by decide) (by decide) (by decide)

/-- Witness for `register_staff_unique_mobile`: with no duplicate mobile,
one staff row is inserted. -/
theorem register_staff_unique_mobile_witness :
    ∃ row,
      Users.registerStaff (fun p => "H" ++ p)
          { id := 7, mobile := "9000000001", role := "admin",
            organization_id := some 2, department := none }
          { name := "S", mobile := "9000000003", pin := "1234",
            department := some "Sales", email := none }
          { users := [], nextId := 10 } =
        (.created 201 10 "S" "9000000003",
         { users := [] ++ [row], nextId := 11 }) ∧
      row.role = "staff" ∧ row.status = "active" ∧
      row.organization_id = some 2 ∧ row.mobile = "9000000003" := by
  exact (register_staff_unique_mobile (fun p => "H" ++ p)
    { id := 7, mobile := "9000000001", role := "admin",
      organization_id := some 2, department := none }
    { name := "S", mobile := "9000000003", pin := "1234",
      department := some "Sales", email := none }
    { users := [], nextId := 10 } 2 rfl rfl (by decide)).2
    (by intro r hr; simp at hr)

/-- Witness for `login_behaviour`: a successful login returns the user's
identity in the token payload. -/
theorem login_behaviour_witness :
    ∃ p, Auth.login (fun pin hash => pin == "1234" && hash == "h1")
        [{ id := 5, name := "A", mobile := "9000000001", pin_hash := "h1",
           role := "admin", organization_id := some 2, department := none,
           email := none, status := "active" }]
        (some "9000000001") (some "1234") = .ok p ∧
      p.id = 5 ∧ p.mobile = "9000000001" ∧ p.role = "admin" ∧
      p.organization_id = some 2 := by
  have h := (login_behaviour (fun pin hash => pin == "1234" && hash == "h1")
    [{ id := 5, name := "A", mobile := "9000000001", pin_hash := "h1",
       role := "admin", organization_id := some 2, department := none,
       email := none, status := "active" }]
    (some "9000000001") (some "1234")).2.2.2
    { id := 5, name := "A", mobile := "9000000001", pin_hash := "h1",
      role := "admin", organization_id := some 2, department := none,
      email := none, status := "active" } []
    (by decide) (by decide) (by decide) (by decide)
  exact h

end IdApp
